import Mathlib

/-!
# Verification of the Bluepages MCP server core pipeline

Shallow embedding of `src/plugins/bluepages/mcp-server.js`.

Conventions of the embedding:
* JS numbers that hold integers (credits, timestamps, statuses) are `Int`/`Nat`.
* `null`/`undefined` is `Option.none`; a JS value that may be absent is an `Option`.
* Asynchronous effects (HTTP responses, the clock, random bytes, the signer)
  are passed explicitly as arguments: the k-th network response is `net k`,
  `Date.now()/1000` is the argument `now`, `randomBytes(32)` is the argument
  `nonceBytes`, and `wallet.signTypedData` is the argument `sign`.
* Thrown JS errors are `Except.error` carrying the error message.
* `Math.round(num/den)` on non-negative arguments is floor(num/den + 1/2),
  modelled exactly on rationals as `(2*num + den) / (2*den)` in `Nat`
  (the double-precision evaluation in JS agrees on all inputs involved here).
-/

namespace Bluepages

/-! ## Configuration constants (mcp-server.js lines 52-57) -/

/-- Source: `const LOW_CREDIT_WARNING = 1000`. -/
def LOW_CREDIT_WARNING : Int := 1000

/-- Source: `const CRITICAL_CREDIT_WARNING = 100`. -/
def CRITICAL_CREDIT_WARNING : Int := 100

/-- JS truthiness of an environment variable: absent (`undefined`) and the
empty string are falsy, every other string is truthy. -/
def truthy : Option String → Bool
  | none => false
  | some s => s ≠ ""

/-- Source: `const AUTH_MODE = API_KEY ? "api-key" : PRIVATE_KEY ? "x402" : "none"`
(line 57). The two arguments are the env vars `BLUEPAGES_API_KEY` and
`PRIVATE_KEY`. -/
def AUTH_MODE (apiKey privateKey : Option String) : String :=
  if truthy apiKey then "api-key" else if truthy privateKey then "x402" else "none"

/-- Lines 59-63: `if (PRIVATE_KEY && !API_KEY) { wallet = new ethers.Wallet(PRIVATE_KEY, provider) }`.
The wallet is modelled as the signing identity deterministically derived from
the private key; we keep the key itself as the identity (the derivation is an
injective external primitive, irrelevant to the claims). `none` = no wallet. -/
def walletOf (apiKey privateKey : Option String) : Option String :=
  if truthy privateKey && !truthy apiKey then privateKey else none

/-! ## Resource usage tracker (lines 65-66, 160-181, 643-644, 987-1008) -/

/-- A credit alert notification as sent by `sendNotification(level, message,
{credits, threshold})` in `checkCreditsAndNotify` (lines 165-177). The
human-readable `message` string is presentation glue and is not modelled. -/
structure Alert where
  level : String
  credits : Int
  threshold : Int
  deriving DecidableEq, Repr

/-- The process-wide mutable tracker state: `lastKnownCredits` (line 66,
initially `null`) and `customAlertThreshold` (line 644, initially
`LOW_CREDIT_WARNING`). -/
structure TrackerState where
  lastKnownCredits : Option Int
  customAlertThreshold : Int
  deriving DecidableEq, Repr

/-- Initial tracker state at process start. -/
def initialTracker : TrackerState :=
  { lastKnownCredits := none, customAlertThreshold := LOW_CREDIT_WARNING }

/-- Function `checkCreditsAndNotify(credits)` (lines 160-181), as a pure state
transition returning the updated state and the alert sent (at most one per
observation).

```js
if (!API_KEY || credits === null || credits === undefined) return;
if (lastKnownCredits !== null) {
  if (credits <= CRITICAL_CREDIT_WARNING && lastKnownCredits > CRITICAL_CREDIT_WARNING)
    await sendNotification("error", ..., { credits, threshold: CRITICAL_CREDIT_WARNING });
  else if (credits <= LOW_CREDIT_WARNING && lastKnownCredits > LOW_CREDIT_WARNING)
    await sendNotification("warning", ..., { credits, threshold: LOW_CREDIT_WARNING });
}
lastKnownCredits = credits;
```

Note the comparisons use the constants `CRITICAL_CREDIT_WARNING` and
`LOW_CREDIT_WARNING`; `customAlertThreshold` is never read here. -/
def checkCreditsAndNotify (hasApiKey : Bool) (credits : Option Int)
    (s : TrackerState) : TrackerState × Option Alert :=
  match hasApiKey, credits with
  | false, _ => (s, none)
  | true, none => (s, none)
  | true, some c =>
    let alert : Option Alert :=
      match s.lastKnownCredits with
      | none => none
      | some last =>
        if c ≤ CRITICAL_CREDIT_WARNING ∧ last > CRITICAL_CREDIT_WARNING then
          some { level := "error", credits := c, threshold := CRITICAL_CREDIT_WARNING }
        else if c ≤ LOW_CREDIT_WARNING ∧ last > LOW_CREDIT_WARNING then
          some { level := "warning", credits := c, threshold := LOW_CREDIT_WARNING }
        else none
    ({ s with lastKnownCredits := some c }, alert)

/-- The `set_credit_alert` tool case (lines 987-1008):
`customAlertThreshold = args.threshold`. -/
def set_credit_alert (threshold : Int) (s : TrackerState) : TrackerState :=
  { s with customAlertThreshold := threshold }

/-- Fold a sequence of balance observations through the tracker, collecting
the alert (or `none`) emitted at each observation. -/
def observeSeq (hasApiKey : Bool) (credits : List (Option Int))
    (s : TrackerState) : TrackerState × List (Option Alert) :=
  match credits with
  | [] => (s, [])
  | c :: rest =>
    let (s', a) := checkCreditsAndNotify hasApiKey c s
    let (s'', as_) := observeSeq hasApiKey rest s'
    (s'', a :: as_)

/-- Whether the (at most one) alert of an observation is an alert for the
given threshold. -/
def firesFor (o : Option Alert) (t : Int) : Bool :=
  match o with
  | none => false
  | some a => a.threshold = t

/-! ## Payment challenge handler (lines 69-119, `createPaymentHeader`) -/

/-- One entry of `paymentRequest.accepts` (a server-offered payment option). -/
structure Accept where
  payTo : String
  maxAmountRequired : String
  asset : String
  network : String
  scheme : String
  maxTimeoutSeconds : Int
  deriving DecidableEq, Repr

/-- The parsed body of a 402 response. -/
structure PaymentRequest where
  x402Version : Int
  accepts : List Accept
  deriving DecidableEq, Repr

/-- The EIP-3009 authorization object built at lines 82-89. The JS fields
`from` and `to` are `from_` and `to_` here (both are Lean keywords). `validAfter`/`validBefore`
are stored as decimal strings because the source calls `.toString()`. -/
structure Authorization where
  from_ : String
  to_ : String
  value : String
  validAfter : String
  validBefore : String
  nonce : String
  deriving DecidableEq, Repr

/-- The typed-data domain built at lines 91-96. -/
structure Domain where
  name : String
  version : String
  chainId : Int
  verifyingContract : String
  deriving DecidableEq, Repr

/-- The payment object serialized at lines 111-116. -/
structure Payment where
  x402Version : Int
  scheme : String
  network : String
  signature : String
  authorization : Authorization
  deriving DecidableEq, Repr

/-- Lowercase hex digit. -/
def hexDigit (n : Nat) : Char :=
  "0123456789abcdef".data.getD (n % 16) '0'

/-- Model of `ethers.hexlify` of a byte list: `"0x"` followed by two lowercase hex
digits per byte. -/
def hexlify (bytes : List Nat) : String :=
  "0x" ++ String.mk (bytes.flatMap (fun b => [hexDigit (b / 16 % 16), hexDigit (b % 16)]))

/-- Model of `JSON.stringify` escaping for the characters that can occur in the
strings at hand (quote and backslash; other control characters do not occur
in hex addresses, amounts, schemes or signatures). -/
def jsonEscapeChar (c : Char) : List Char :=
  if c = '"' ∨ c = '\\' then ['\\', c] else [c]

/-- A JSON string literal. -/
def jsonStr (s : String) : String :=
  "\"" ++ String.mk (s.data.flatMap jsonEscapeChar) ++ "\""

/-- Model of `JSON.stringify` of the authorization object, with keys in insertion
order as in lines 82-89. -/
def stringifyAuthorization (a : Authorization) : String :=
  "\x7b\"from\":" ++ jsonStr a.from_ ++
  ",\"to\":" ++ jsonStr a.to_ ++
  ",\"value\":" ++ jsonStr a.value ++
  ",\"validAfter\":" ++ jsonStr a.validAfter ++
  ",\"validBefore\":" ++ jsonStr a.validBefore ++
  ",\"nonce\":" ++ jsonStr a.nonce ++ "\x7d"

/-- Model of `JSON.stringify(payment)` for the object of lines 111-116, keys in
insertion order. -/
def stringifyPayment (p : Payment) : String :=
  "\x7b\"x402Version\":" ++ toString p.x402Version ++
  ",\"scheme\":" ++ jsonStr p.scheme ++
  ",\"network\":" ++ jsonStr p.network ++
  ",\"payload\":\x7b\"signature\":" ++ jsonStr p.signature ++
  ",\"authorization\":" ++ stringifyAuthorization p.authorization ++ "\x7d\x7d"

/-- The base64 alphabet used by `Buffer.toString("base64")`. -/
def base64Alphabet : List Char :=
  "ABCDEFGHIJKLMNOPQRSTUVWXYZabcdefghijklmnopqrstuvwxyz0123456789+/".data

def b64Char (n : Nat) : Char := base64Alphabet.getD (n % 64) 'A'

/-- Standard base64 with padding over a byte list. -/
def base64Encode : List Nat → String
  | [] => ""
  | [a] =>
    String.mk [b64Char (a / 4), b64Char (a % 4 * 16), '=', '=']
  | [a, b] =>
    String.mk [b64Char (a / 4), b64Char (a % 4 * 16 + b / 16), b64Char (b % 16 * 4), '=']
  | a :: b :: c :: rest =>
    String.mk [b64Char (a / 4), b64Char (a % 4 * 16 + b / 16),
               b64Char (b % 16 * 4 + c / 64), b64Char (c % 64)] ++
    base64Encode rest

/-- Bytes of a string (the payloads at hand are ASCII, where UTF-8 bytes are
the code points). -/
def strBytes (s : String) : List Nat := s.data.map Char.toNat

/-- The typed-data domain of lines 91-96. -/
def paymentDomain (asset : String) : Domain :=
  { name := "USD Coin", version := "2", chainId := 8453, verifyingContract := asset }

/-- The record-level part of `createPaymentHeader` (lines 72-116): from the
wallet address, the current time in seconds (`Math.floor(Date.now()/1000)`),
the 32 random bytes drawn by `ethers.randomBytes(32)`, the signer
(`wallet.signTypedData(domain, types, authorization)`), and the payment
request, build the `payment` object. JS faults are `Except.error`:
no wallet (lines 73-75) and an out-of-bounds `accepts[0]` (line 77, a
`TypeError` on `accept.maxTimeoutSeconds`). -/
def createPayment (wallet : Option String) (now : Int) (nonceBytes : List Nat)
    (sign : Domain → Authorization → String) (pr : PaymentRequest) :
    Except String Payment :=
  match wallet with
  | none => .error "PRIVATE_KEY environment variable required for x402 payments"
  | some walletAddress =>
    match pr.accepts with
    | [] => .error "Cannot read properties of undefined (reading maxTimeoutSeconds)"
    | accept :: _ =>
      let nonce := hexlify nonceBytes
      let validAfter := now - 600
      let validBefore := now + accept.maxTimeoutSeconds
      let authorization : Authorization :=
        { from_ := walletAddress
          to_ := accept.payTo
          value := accept.maxAmountRequired
          validAfter := toString validAfter
          validBefore := toString validBefore
          nonce := nonce }
      let signature := sign (paymentDomain accept.asset) authorization
      .ok { x402Version := pr.x402Version
            scheme := accept.scheme
            network := accept.network
            signature := signature
            authorization := authorization }

/-- Function `createPaymentHeader` (lines 72-119): the payment object, JSON-stringified
and base64-encoded (`Buffer.from(JSON.stringify(payment)).toString("base64")`,
line 118). -/
def createPaymentHeader (wallet : Option String) (now : Int) (nonceBytes : List Nat)
    (sign : Domain → Authorization → String) (pr : PaymentRequest) :
    Except String String :=
  (createPayment wallet now nonceBytes sign pr).map
    (fun p => base64Encode (strBytes (stringifyPayment p)))

/-! ## Authenticated request executor (lines 186-252, `fetchWithAuth`) -/

/-- An HTTP response as seen after `await response.json()`: the status code
and the parsed body, of an abstract type `β`. -/
structure HttpResponse (β : Type) where
  status : Nat
  body : β

/-- Model of `response.ok` of node-fetch: status in the range [200, 300). -/
def isOkStatus (status : Nat) : Bool := 200 ≤ status ∧ status < 300

/-- The error message thrown for a non-ok response:
`error.error || ‵Request failed: ${response.status}‵` (lines 197-199, 221-223,
246-249). `errorOf` extracts the body's `error` field; a body that fails to
parse as JSON is modelled as a body with no `error` field (the source's
fallback `{ error: response.statusText }` keeps the status information the
same way). -/
def upstreamErrMsg {β : Type} (errorOf : β → Option String)
    (r : HttpResponse β) : String :=
  (errorOf r.body).getD ("Request failed: " ++ toString r.status)

/-- The x402 branch of `fetchWithAuth` (lines 213-252), in payment mode
(no API key). Arguments:
* `wallet`, `now`, `nonceBytes`, `sign` — as in `createPayment`;
* `errorOf` — reads the `error` field of a parsed body;
* `prOf` — reads a parsed body as a `PaymentRequest` (used on a 402 body);
* `r1` — the response to the first `fetch`;
* `r2` — the response the second `fetch` would get.

Returns the outcome (`.ok` parsed body or `.error` message) together with
the number of network calls made.

```js
const response1 = await fetch(url, ...);
if (response1.status !== 402) {
  if (!response1.ok) throw new Error(error.error || ...);
  return response1.json();
}
if (!wallet) throw new Error("Payment required but no PRIVATE_KEY or BLUEPAGES_API_KEY configured");
const paymentRequest = await response1.json();
const paymentHeader = await createPaymentHeader(paymentRequest);
const response2 = await fetch(url, { headers: { ..., "X-PAYMENT": paymentHeader }, ... });
if (!response2.ok) throw new Error(error.error || ...);
return response2.json();
``` -/
def fetchWithAuthX402 {β : Type} (wallet : Option String) (now : Int)
    (nonceBytes : List Nat) (sign : Domain → Authorization → String)
    (errorOf : β → Option String) (prOf : β → PaymentRequest)
    (r1 r2 : HttpResponse β) : Except String β × Nat :=
  if r1.status ≠ 402 then
    if isOkStatus r1.status then (.ok r1.body, 1)
    else (.error (upstreamErrMsg errorOf r1), 1)
  else
    match wallet with
    | none => (.error "Payment required but no PRIVATE_KEY or BLUEPAGES_API_KEY configured", 1)
    | some w =>
      match createPaymentHeader (some w) now nonceBytes sign (prOf r1.body) with
      | .error e => (.error e, 1)
      | .ok _paymentHeader =>
        if isOkStatus r2.status then (.ok r2.body, 2)
        else (.error (upstreamErrMsg errorOf r2), 2)

/-- The API-key branch of `fetchWithAuth` (lines 190-211): one request; a
non-ok response throws; on success the `X-Credits-Remaining` header (if
present and numeric, argument `creditsHeader`) is forwarded to
`checkCreditsAndNotify`. Returns outcome, number of calls, and the updated
tracker state. -/
def fetchWithAuthApiKey {β : Type} (errorOf : β → Option String)
    (creditsHeader : Option Int) (r1 : HttpResponse β) (s : TrackerState) :
    Except String β × Nat × TrackerState :=
  if isOkStatus r1.status then
    match creditsHeader with
    | some c => (.ok r1.body, 1, (checkCreditsAndNotify true (some c) s).1)
    | none => (.ok r1.body, 1, s)
  else (.error (upstreamErrMsg errorOf r1), 1, s)

/-! ## Batch chunker / streaming driver (lines 354-427, `processBatchWithStreaming`) -/

/-- Source: `const batchSize = 50` (line 359). -/
def batchSize : Nat := 50

/-- Model of `Math.round(num / den)` for non-negative integers, `den > 0`:
floor(num/den + 1/2). -/
def jsRound (num den : Nat) : Nat := (2 * num + den) / (2 * den)

/-- Model of `Math.ceil(total / 50)` (line 365). -/
def totalBatchesOf (total : Nat) : Nat := (total + 49) / 50

/-- The chunking of the loop `for (let i = 0; i < items.length; i += 50)`
with `batch = items.slice(i, min(i + 50, items.length))` (lines 362-363):
contiguous chunks of 50, last one possibly shorter. Structural recursion on
a fuel bounded by the list length (each step consumes at least one element),
so that the definition evaluates by kernel reduction. -/
def chunksGo {α : Type} : Nat → List α → List (List α)
  | _, [] => []
  | 0, _ :: _ => []
  | fuel + 1, x :: xs => ((x :: xs).take 50) :: chunksGo fuel ((x :: xs).drop 50)

def chunksOf50 {α : Type} (l : List α) : List (List α) := chunksGo l.length l

/-- Shape of `info.primary` of a `/batch/data` entry. -/
structure PrimaryInfo where
  twitter : Option String
  displayName : Option String
  source : Option String
  deriving DecidableEq, Repr

/-- The parsed per-item object of a batch response
(`result.results[key][itemKey]`). `/batch/check` entries carry
`exists`/`twitter`/`farcaster` booleans; `/batch/data` entries carry
`found`/`primary`/`alternates`. JS objects are duck-typed, so one record
holds both shapes; the endpoint decides which fields are read. The JS
`x || null` collapse of missing-or-falsy to `null` is `Option.none`, and
`info.alternates?.length || 0` is `alternatesLen.getD 0`. -/
structure ItemInfo where
  exists_ : Bool := false
  twitterFlag : Bool := false
  farcasterFlag : Bool := false
  found : Bool := false
  primary : Option PrimaryInfo := none
  alternatesLen : Option Nat := none
  deriving DecidableEq, Repr

/-- A normalized result record pushed to `results` (lines 389-405):
`check` shape for `/batch/check`, `data` shape for `/batch/data`. -/
inductive ItemRecord where
  | check (id : String) (found : Bool) (twitter : Bool) (farcaster : Bool)
  | data (id : String) (found : Bool) (twitter : Option String)
      (displayName : Option String) (source : Option String) (alternates : Nat)
  deriving DecidableEq, Repr

/-- A `progressCallback` invocation: chunk-level `progress` events
(lines 368-374; `batchNumber`/`totalBatches` appear in the message text)
and per-found-item `result` events (lines 411-421). -/
inductive Event where
  | progress (current total percentage batchNumber totalBatches : Nat)
  | result (item : ItemRecord)
  deriving DecidableEq, Repr

/-- Lines 384-422: convert one chunk's keyed mapping (in its iteration
order) to records and per-item `result` events. -/
def extractEntries (isData : Bool) : List (String × ItemInfo) →
    List ItemRecord × List Event
  | [] => ([], [])
  | (itemKey, info) :: rest =>
    let itemResult : ItemRecord :=
      if isData then
        .data itemKey info.found (info.primary.bind (·.twitter))
          (info.primary.bind (·.displayName)) (info.primary.bind (·.source))
          (info.alternatesLen.getD 0)
      else
        .check itemKey info.exists_ info.twitterFlag info.farcasterFlag
    let isFound := if isData then info.found else info.exists_
    let evs := if isFound then [Event.result itemResult] else []
    let (rs, es) := extractEntries isData rest
    (itemResult :: rs, evs ++ es)

/-- The outcome of one batch run: the callback events emitted, the chunk
bodies sent upstream (in order), and the overall result — the accumulated
records on success, or the thrown error. -/
structure BatchRun where
  events : List Event
  requests : List (List String)
  outcome : Except String (List ItemRecord)
  deriving Repr

/-- The chunk loop of `processBatchWithStreaming`. `net k` is the response
to the k-th upstream POST (the awaited `postWithAuth`): `.error` when the
request throws, otherwise `.ok` with `result.results?.[key]` as an ordered
association list (`none` when the key is absent). `i` is the loop variable
(the offset of the current chunk), `k` the number of requests already made.

Per chunk: emit the `progress` event (current = i + batch.length,
percentage = Math.round(current/total*100), batch number = i/50 + 1),
issue the request, on failure abort the whole run with the error, on
success append the chunk's records and events and continue. -/
def runChunks (total : Nat) (isData : Bool)
    (net : Nat → Except String (Option (List (String × ItemInfo)))) :
    Nat → Nat → List (List String) → BatchRun
  | _, _, [] => { events := [], requests := [], outcome := .ok [] }
  | i, k, c :: cs =>
    let current := i + c.length
    let ev := Event.progress current total (jsRound (current * 100) total)
      (i / 50 + 1) (totalBatchesOf total)
    match net k with
    | .error e => { events := [ev], requests := [c], outcome := .error e }
    | .ok resp =>
      let (recs, revs) :=
        match resp with
        | none => ([], [])
        | some entries => extractEntries isData entries
      let rest := runChunks total isData net (i + c.length) (k + 1) cs
      { events := ev :: (revs ++ rest.events)
        requests := c :: rest.requests
        outcome := rest.outcome.map (fun tail => recs ++ tail) }

/-- Function `processBatchWithStreaming(items, type, endpoint, progressCallback)`
(lines 357-427). `isData` is `endpoint.includes("/data")` (line 360). -/
def processBatchWithStreaming (items : List String) (isData : Bool)
    (net : Nat → Except String (Option (List (String × ItemInfo)))) : BatchRun :=
  runChunks items.length isData net 0 0 (chunksOf50 items)

/-! ## Tool-call boundary (lines 647-667 and 1084-1094) -/

/-- A tool call's result payload: one text content block and the `isError`
flag (absent in JS = `false`). -/
structure ToolResult where
  text : String
  isError : Bool := false
  deriving DecidableEq, Repr

/-- The configuration-error text returned when no credentials are configured
(lines 653-666). -/
def notConfiguredText : String :=
  "Bluepages is not configured. Set one of these environment variables and restart:\n\n" ++
  "Option 1 (recommended): BLUEPAGES_API_KEY\n" ++
  "  Get a key at https://bluepages.fyi/api-keys.html\n" ++
  "  20% cheaper, 2x rate limits\n\n" ++
  "Option 2: PRIVATE_KEY\n" ++
  "  Ethereum private key for x402 payments (USDC on Base)\n" ++
  "  No API key needed, pay per request"

/-- The `CallToolRequestSchema` handler (lines 647-1095), with the body of
the `try { switch ... } catch` modelled by the continuation `dispatch`
(a function from the tool name to a result and the number of network calls
it makes). The handler returns the pair (tool result, network calls made).

```js
if (AUTH_MODE === "none") {
  return { content: [{ type: "text", text: "Bluepages is not configured. ..." }], isError: true };
}
try { switch (name) { ... } } catch ...
``` -/
def handleToolCall (authMode : String) (dispatch : String → ToolResult × Nat)
    (name : String) : ToolResult × Nat :=
  if authMode = "none" then ({ text := notConfiguredText, isError := true }, 0)
  else dispatch name

/-- The uniform error boundary at the bottom of the tool handler
(lines 1084-1094): a thrown error becomes a one-line
`Error: <message>` text payload flagged `isError: true`; a normal return
passes through. -/
def toolBoundary (r : Except String ToolResult) : ToolResult :=
  match r with
  | .ok v => v
  | .error e => { text := "Error: " ++ e, isError := true }

/-! ## `purchase_credits` tool case (lines 1010-1079) -/

/-- The package table of lines 1016-1020 (name, credits, price in USD). -/
def purchasePackages : List (String × Nat × Nat) :=
  [("starter", 5000, 5), ("pro", 50000, 45), ("enterprise", 1000000, 600)]

/-- The `purchase_credits` tool case (lines 1010-1079), as a function of the
two responses the purchase endpoint would give. Returns the outcome, the
number of network calls made, and whether a payment header was built
(`createPaymentHeader` reached). The notifications sent along the way are
not network calls (they go to the MCP host, not upstream).

```js
if (!wallet) throw new Error("purchase_credits requires PRIVATE_KEY for x402 payments");
const pkg = packages[packageName];
if (!pkg) throw new Error(‵Invalid package: ${packageName}‵);
const response1 = await fetch(‵.../api/credits/purchase?package=...‵, { method: "POST", ... });
if (response1.status !== 402) {
  const error = await response1.json().catch(() => ({ error: response1.statusText }));
  throw new Error(error.error || ‵Unexpected response: ${response1.status}‵);
}
const paymentRequest = await response1.json();
const paymentHeader = await createPaymentHeader(paymentRequest);
const response2 = await fetch(..., { headers: { ..., "X-PAYMENT": paymentHeader }, ... });
if (!response2.ok) throw new Error(error.error || ‵Payment failed: ${response2.status}‵);
const result = await response2.json();
``` -/
def purchase_credits {β : Type} (wallet : Option String) (packageName : String)
    (now : Int) (nonceBytes : List Nat) (sign : Domain → Authorization → String)
    (errorOf : β → Option String) (prOf : β → PaymentRequest)
    (r1 r2 : HttpResponse β) : Except String β × Nat × Bool :=
  match wallet with
  | none => (.error "purchase_credits requires PRIVATE_KEY for x402 payments", 0, false)
  | some w =>
    match (purchasePackages.find? (fun p => p.1 = packageName)) with
    | none => (.error ("Invalid package: " ++ packageName), 0, false)
    | some _pkg =>
      if r1.status ≠ 402 then
        (.error ((errorOf r1.body).getD ("Unexpected response: " ++ toString r1.status)), 1, false)
      else
        match createPaymentHeader (some w) now nonceBytes sign (prOf r1.body) with
        | .error e => (.error e, 1, true)
        | .ok _paymentHeader =>
          if isOkStatus r2.status then (.ok r2.body, 2, true)
          else (.error ((errorOf r2.body).getD ("Payment failed: " ++ toString r2.status)), 2, true)

/-! ## Twitter-handle normalization (lines 688, 719, 737, 795) -/

/-- JS `t.startsWith("@")`: the first character is `@`. -/
def jsStartsWithAt (t : String) : Bool := t.data.head? = some '@'

/-- Source: `args.twitter.startsWith("@") ? args.twitter : ‵@${args.twitter}‵`
(line 688; identically at lines 719, 737, 795). -/
def normalizeHandle (t : String) : String :=
  if jsStartsWithAt t then t else "@" ++ t

/-- The batch variants map the normalization over the list
(`args.twitters.map((t) => (t.startsWith("@") ? t : ‵@${t}‵))`,
lines 737 and 795). -/
def normalizeHandles (ts : List String) : List String := ts.map normalizeHandle

/-- The chunk-level progress percentages of a batch run, in order. -/
def progressPercentages (run : BatchRun) : List Nat :=
  run.events.filterMap (fun e =>
    match e with
    | .progress _ _ p _ _ => some p
    | .result _ => none)

/-! ## Helper lemmas -/

theorem data_append_at (s : String) : ("@" ++ s).data = '@' :: s.data := by
  cases s with
  | mk d => rfl

theorem jsStartsWithAt_append (s : String) : jsStartsWithAt ("@" ++ s) = true := by
  simp [jsStartsWithAt, data_append_at]

theorem string_data_append (s t : String) : (s ++ t).data = s.data ++ t.data := by
  cases s; cases t; rfl

/-- Decode a lowercase hex digit back to its value. -/
def hexVal (c : Char) : Nat := "0123456789abcdef".data.indexOf c

theorem hexVal_hexDigit : ∀ n : Fin 16, hexVal (hexDigit n.val) = n.val := by
  decide

theorem hexDigit_pair_inj (b b' : Nat) (hb : b < 256) (hb' : b' < 256)
    (h1 : hexDigit (b / 16 % 16) = hexDigit (b' / 16 % 16))
    (h2 : hexDigit (b % 16) = hexDigit (b' % 16)) : b = b' := by
  have k1 := hexVal_hexDigit ⟨b / 16 % 16, Nat.mod_lt _ (by norm_num)⟩
  have k1' := hexVal_hexDigit ⟨b' / 16 % 16, Nat.mod_lt _ (by norm_num)⟩
  have k2 := hexVal_hexDigit ⟨b % 16, Nat.mod_lt _ (by norm_num)⟩
  have k2' := hexVal_hexDigit ⟨b' % 16, Nat.mod_lt _ (by norm_num)⟩
  simp only at k1 k1' k2 k2'
  have e1 : b / 16 % 16 = b' / 16 % 16 := by
    rw [← k1, ← k1', h1]
  have e2 : b % 16 = b' % 16 := by
    rw [← k2, ← k2', h2]
  omega

theorem hexBlocks_inj : ∀ (l l' : List Nat), (∀ b ∈ l, b < 256) → (∀ b ∈ l', b < 256) →
    l.length = l'.length →
    l.flatMap (fun b => [hexDigit (b / 16 % 16), hexDigit (b % 16)]) =
      l'.flatMap (fun b => [hexDigit (b / 16 % 16), hexDigit (b % 16)]) →
    l = l' := by
  intro l
  induction l with
  | nil =>
    intro l' _ _ hlen _
    cases l' with
    | nil => rfl
    | cons a t => simp at hlen
  | cons a t ih =>
    intro l' hl hl' hlen hflat
    cases l' with
    | nil => simp at hlen
    | cons a' t' =>
      simp only [List.flatMap_cons, List.cons_append, List.nil_append] at hflat
      obtain ⟨h1, h2, h3⟩ : hexDigit (a / 16 % 16) = hexDigit (a' / 16 % 16) ∧
          hexDigit (a % 16) = hexDigit (a' % 16) ∧
          t.flatMap (fun b => [hexDigit (b / 16 % 16), hexDigit (b % 16)]) =
            t'.flatMap (fun b => [hexDigit (b / 16 % 16), hexDigit (b % 16)]) := by
        injection hflat with u1 rest1
        injection rest1 with u2 u3
        exact ⟨u1, u2, u3⟩
      have ha : a = a' :=
        hexDigit_pair_inj a a' (hl a (by simp)) (hl' a' (by simp)) h1 h2
      have ht : t = t' := by
        refine ih t' (fun b hb => hl b (by simp [hb])) (fun b hb => hl' b (by simp [hb])) ?_ h3
        simpa using hlen
      rw [ha, ht]

theorem hexlify_inj (l l' : List Nat) (hl : ∀ b ∈ l, b < 256) (hl' : ∀ b ∈ l', b < 256)
    (hlen : l.length = l'.length) (h : hexlify l = hexlify l') : l = l' := by
  apply hexBlocks_inj l l' hl hl' hlen
  have hd := congrArg String.data h
  rw [hexlify, hexlify, string_data_append, string_data_append] at hd
  simpa using hd

theorem chunksGo_nil {α : Type} (fuel : Nat) : chunksGo fuel ([] : List α) = [] := by
  cases fuel <;> rfl

theorem chunksGo_cons {α : Type} (fuel : Nat) (x : α) (xs : List α) :
    chunksGo (fuel + 1) (x :: xs) = ((x :: xs).take 50) :: chunksGo fuel ((x :: xs).drop 50) :=
  rfl

theorem chunksGo_flatten {α : Type} : ∀ (fuel : Nat) (l : List α), l.length ≤ fuel →
    (chunksGo fuel l).flatten = l := by
  intro fuel
  induction fuel with
  | zero =>
    intro l hl
    cases l with
    | nil => rfl
    | cons x xs => simp at hl
  | succ f ih =>
    intro l hl
    cases l with
    | nil => rfl
    | cons x xs =>
      rw [chunksGo_cons]
      simp only [List.flatten_cons]
      rw [ih]
      · exact List.take_append_drop 50 (x :: xs)
      · rw [List.length_drop]
        simp only [List.length_cons] at hl ⊢
        omega

theorem chunksGo_mem_length {α : Type} : ∀ (fuel : Nat) (l : List α), l.length ≤ fuel →
    ∀ c ∈ chunksGo fuel l, 0 < c.length ∧ c.length ≤ 50 := by
  intro fuel
  induction fuel with
  | zero =>
    intro l hl c hc
    cases l with
    | nil => simp [chunksGo_nil] at hc
    | cons x xs => simp at hl
  | succ f ih =>
    intro l hl c hc
    cases l with
    | nil => simp [chunksGo_nil] at hc
    | cons x xs =>
      rw [chunksGo_cons] at hc
      rcases List.mem_cons.mp hc with h | h
      · subst h
        rw [List.length_take]
        simp only [List.length_cons]
        omega
      · apply ih _ ?_ c h
        rw [List.length_drop]
        simp only [List.length_cons] at hl ⊢
        omega

theorem chunksGo_dropLast {α : Type} : ∀ (fuel : Nat) (l : List α), l.length ≤ fuel →
    ∀ c ∈ (chunksGo fuel l).dropLast, c.length = 50 := by
  intro fuel
  induction fuel with
  | zero =>
    intro l hl c hc
    cases l with
    | nil => simp [chunksGo_nil] at hc
    | cons x xs => simp at hl
  | succ f ih =>
    intro l hl c hc
    cases l with
    | nil => simp [chunksGo_nil] at hc
    | cons x xs =>
      cases hdrop : (x :: xs).drop 50 with
      | nil =>
        rw [chunksGo_cons, hdrop, chunksGo_nil] at hc
        simp at hc
      | cons y ys =>
        have hflen : (y :: ys).length ≤ f := by
          have hld := List.length_drop 50 (x :: xs)
          rw [hdrop] at hld
          simp only [List.length_cons] at hld hl ⊢
          omega
        cases f with
        | zero => simp at hflen
        | succ g =>
          rw [chunksGo_cons, hdrop, chunksGo_cons, List.dropLast_cons₂] at hc
          rcases List.mem_cons.mp hc with h | h
          · subst h
            rw [List.length_take]
            have hlen : 50 < (x :: xs).length := by
              by_contra hcon
              push_neg at hcon
              have hnil : (x :: xs).drop 50 = [] := List.drop_eq_nil_of_le hcon
              rw [hdrop] at hnil
              simp at hnil
            simp only [List.length_cons] at hlen ⊢
            omega
          · apply ih (y :: ys) hflen c
            rw [chunksGo_cons]
            exact h

theorem runChunks_requests_all_ok
    (net : Nat → Except String (Option (List (String × ItemInfo))))
    (total : Nat) (isData : Bool)
    (hnet : ∀ k, ∃ v, net k = Except.ok v) :
    ∀ (cs : List (List String)) (i k : Nat),
      (runChunks total isData net i k cs).requests = cs := by
  intro cs
  induction cs with
  | nil => intro i k; rfl
  | cons c cs ih =>
    intro i k
    obtain ⟨v, hv⟩ := hnet k
    simp only [runChunks]
    rw [hv]
    simp [ih]

theorem runChunks_abort
    (net : Nat → Except String (Option (List (String × ItemInfo))))
    (total : Nat) (isData : Bool) (e : String) :
    ∀ (cs : List (List String)) (j i k : Nat),
      (∀ m, m < j → ∃ v, net (k + m) = Except.ok v) →
      net (k + j) = .error e →
      j < cs.length →
      (runChunks total isData net i k cs).outcome = .error e ∧
      (runChunks total isData net i k cs).requests = cs.take (j + 1) := by
  intro cs
  induction cs with
  | nil =>
    intro j i k _ _ hj
    simp at hj
  | cons c cs ih =>
    intro j i k hok herr hj
    cases j with
    | zero =>
      rw [Nat.add_zero] at herr
      simp only [runChunks]
      rw [herr]
      simp
    | succ m =>
      obtain ⟨v, hv⟩ := hok 0 (Nat.succ_pos m)
      rw [Nat.add_zero] at hv
      have hrec := ih m (i + c.length) (k + 1)
        (fun m' hm' => by
          obtain ⟨v', hv'⟩ := hok (m' + 1) (by omega)
          exact ⟨v', by rw [show k + 1 + m' = k + (m' + 1) by omega]; exact hv'⟩)
        (by rw [show k + 1 + m = k + (m + 1) by omega]; exact herr)
        (by simpa using hj)
      simp only [runChunks]
      rw [hv]
      constructor
      · simp [hrec.1, Except.map]
      · simp [hrec.2]

/-! ## Claim theorems -/

/-- C3: for every environment in which both the API key credential and the
signing-key credential are set (present and non-empty), the resolved
authentication mode is `"api-key"` (never `"x402"`/payment), and no
wallet/signing identity is derived. -/
theorem C3_auth_priority (apiKey privateKey : String)
    (ha : apiKey ≠ "") (_hp : privateKey ≠ "") :
    AUTH_MODE (some apiKey) (some privateKey) = "api-key" ∧
    AUTH_MODE (some apiKey) (some privateKey) ≠ "x402" ∧
    walletOf (some apiKey) (some privateKey) = none := by
  refine ⟨?_, ?_, ?_⟩
  · simp [AUTH_MODE, truthy, ha]
  · simp [AUTH_MODE, truthy, ha]
  · simp [walletOf, truthy, ha]

/-- Witness for C3 at a concrete environment. -/
theorem C3_auth_priority_witness :
    AUTH_MODE (some "bp_key") (some "0xdeadbeef") = "api-key" ∧
    AUTH_MODE (some "bp_key") (some "0xdeadbeef") ≠ "x402" ∧
    walletOf (some "bp_key") (some "0xdeadbeef") = none :=
  C3_auth_priority "bp_key" "0xdeadbeef" (by decide) (by decide)

/-- C10: every Twitter-handle value sent upstream begins with `@`: a handle
lacking the `@` prefix has it prepended, a handle already starting with `@`
passes through unchanged, and the normalization (and its batch mapping) is
idempotent. -/
theorem C10_handle_normalization :
    (∀ t, jsStartsWithAt (normalizeHandle t) = true) ∧
    (∀ t, jsStartsWithAt t = true → normalizeHandle t = t) ∧
    (∀ t, jsStartsWithAt t = false → normalizeHandle t = "@" ++ t) ∧
    (∀ t, normalizeHandle (normalizeHandle t) = normalizeHandle t) ∧
    (∀ ts, normalizeHandles (normalizeHandles ts) = normalizeHandles ts) := by
  have hstart : ∀ t, jsStartsWithAt (normalizeHandle t) = true := by
    intro t
    by_cases h : jsStartsWithAt t = true
    · simp [normalizeHandle, h]
    · simp only [normalizeHandle]
      rw [if_neg (by simp [h])]
      exact jsStartsWithAt_append t
  have hkeep : ∀ t, jsStartsWithAt t = true → normalizeHandle t = t := by
    intro t h; simp [normalizeHandle, h]
  have hidem : ∀ t, normalizeHandle (normalizeHandle t) = normalizeHandle t := by
    intro t; exact hkeep _ (hstart t)
  refine ⟨hstart, hkeep, ?_, hidem, ?_⟩
  · intro t h
    simp only [normalizeHandle]
    rw [if_neg (by simp [h])]
  · intro ts
    simp only [normalizeHandles, List.map_map]
    exact List.map_congr_left (fun t _ => hidem t)

/-- Witness for C10 at a concrete handle. -/
theorem C10_handle_normalization_witness :
    normalizeHandle "@vitalik" = "@vitalik" :=
  C10_handle_normalization.2.1 "@vitalik" (by decide)

/-- C6: when neither credential is set (auth mode "none"), every tool
invocation — whatever the tool name and whatever the rest of the handler
would do — returns the configuration-error text payload flagged as an error
and performs zero network calls. -/
theorem C6_fail_fast (apiKey privateKey : Option String)
    (ha : truthy apiKey = false) (hp : truthy privateKey = false) :
    ∀ (dispatch : String → ToolResult × Nat) (toolName : String),
      handleToolCall (AUTH_MODE apiKey privateKey) dispatch toolName
        = ({ text := notConfiguredText, isError := true }, 0) := by
  intro dispatch toolName
  simp [AUTH_MODE, ha, hp, handleToolCall]

/-- Witness for C6 at a concrete (empty) environment and tool. -/
theorem C6_fail_fast_witness :
    handleToolCall (AUTH_MODE none none)
        (fun _ => ({ text := "reached the dispatch", isError := false }, 7)) "check_address"
      = ({ text := notConfiguredText, isError := true }, 0) :=
  C6_fail_fast none none rfl rfl _ _

/-- C2 (code bug): the low-threshold crossing computation in
`checkCreditsAndNotify` never reads the mutable `customAlertThreshold`; its
alert decision is identical whatever value `set_credit_alert` stored, and in
particular after `set_credit_alert 500`, a drop from 900 to 400 credits —
which crosses the mutable threshold 500 — emits no alert (the code compares
against the constant 1000 instead, and 900 was already at or below it). -/
theorem C2_customAlertThreshold_ignored :
    (∀ (v c last : Int),
      (checkCreditsAndNotify true (some c)
          { lastKnownCredits := some last, customAlertThreshold := v }).2
        = (checkCreditsAndNotify true (some c)
          { lastKnownCredits := some last, customAlertThreshold := LOW_CREDIT_WARNING }).2) ∧
    ((checkCreditsAndNotify true (some 400)
        (set_credit_alert 500
          { lastKnownCredits := some 900, customAlertThreshold := LOW_CREDIT_WARNING })).2
      = none) := by
  constructor
  · intro v c last; rfl
  · decide

/-- C1 counterexample: the claim's "if and only if" fails at a simultaneous
crossing. With previous balance 1500 and new balance 50, the previous
balance is known and strictly greater than the low threshold 1000 and the
new balance is at or below it, yet no alert for threshold 1000 is emitted
(the critical alert for threshold 100 is emitted instead and suppresses
it). -/
theorem C1_counterexample :
    ¬ ((firesFor
          ((checkCreditsAndNotify true (some 50)
            { lastKnownCredits := some 1500,
              customAlertThreshold := LOW_CREDIT_WARNING }).2)
          LOW_CREDIT_WARNING = true)
        ↔ ((some (1500 : Int)).isSome = true ∧
            (1500 : Int) > LOW_CREDIT_WARNING ∧ (50 : Int) ≤ LOW_CREDIT_WARNING)) := by
  decide

/-- C1 (amended): an alert for a given threshold is emitted only if the
previously observed balance is known and strictly greater than the threshold
and the new balance is at or below it; the critical alert (threshold 100) is
emitted exactly when its crossing condition holds, and the low alert
(threshold 1000) exactly when its crossing condition holds and the critical
condition does not (critical suppresses low); no alert is emitted when the
previous balance is unknown; and for the observed balance sequence
[unknown, 1500, 900, 900, 50] exactly two alerts fire: the low alert at the
1500-to-900 observation and the critical alert at the 900-to-50 observation,
with no alert at the repeated 900 and none at the first observation. -/
theorem C1_threshold_crossing :
    (∀ (c last v t : Int),
        firesFor ((checkCreditsAndNotify true (some c)
            { lastKnownCredits := some last, customAlertThreshold := v }).2) t = true →
          last > t ∧ c ≤ t) ∧
    (∀ (c last v : Int),
        firesFor ((checkCreditsAndNotify true (some c)
            { lastKnownCredits := some last, customAlertThreshold := v }).2)
            CRITICAL_CREDIT_WARNING = true
          ↔ (last > CRITICAL_CREDIT_WARNING ∧ c ≤ CRITICAL_CREDIT_WARNING)) ∧
    (∀ (c last v : Int),
        firesFor ((checkCreditsAndNotify true (some c)
            { lastKnownCredits := some last, customAlertThreshold := v }).2)
            LOW_CREDIT_WARNING = true
          ↔ ((last > LOW_CREDIT_WARNING ∧ c ≤ LOW_CREDIT_WARNING) ∧
             ¬(last > CRITICAL_CREDIT_WARNING ∧ c ≤ CRITICAL_CREDIT_WARNING))) ∧
    (∀ (c v : Int),
        (checkCreditsAndNotify true (some c)
          { lastKnownCredits := none, customAlertThreshold := v }).2 = none) ∧
    ((observeSeq true [some 1500, some 900, some 900, some 50] initialTracker).2 =
      [none,
       some { level := "warning", credits := 900, threshold := LOW_CREDIT_WARNING },
       none,
       some { level := "error", credits := 50, threshold := CRITICAL_CREDIT_WARNING }]) := by
  refine ⟨?_, ?_, ?_, ?_, by decide⟩
  · intro c last v t h
    simp only [checkCreditsAndNotify, CRITICAL_CREDIT_WARNING, LOW_CREDIT_WARNING] at h
    split at h
    · simp only [firesFor] at h
      have ht : (100 : Int) = t := by simpa using h
      subst ht
      omega
    · split at h
      · simp only [firesFor] at h
        have ht : (1000 : Int) = t := by simpa using h
        subst ht
        omega
      · simp [firesFor] at h
  · intro c last v
    simp only [checkCreditsAndNotify, CRITICAL_CREDIT_WARNING, LOW_CREDIT_WARNING]
    constructor
    · intro h
      split at h
      · omega
      · split at h
        · simp only [firesFor] at h
          simp at h
        · simp [firesFor] at h
    · intro h
      rw [if_pos ⟨h.2, h.1⟩]
      simp [firesFor]
  · intro c last v
    simp only [checkCreditsAndNotify, CRITICAL_CREDIT_WARNING, LOW_CREDIT_WARNING]
    constructor
    · intro h
      split at h
      · simp only [firesFor] at h
        simp at h
      · split at h
        · omega
        · simp [firesFor] at h
    · intro h
      rw [if_neg (by omega), if_pos ⟨h.1.2, h.1.1⟩]
      simp [firesFor]
  · intro c v; rfl

/-- Witness for C1 (amended) at a concrete crossing. -/
theorem C1_threshold_crossing_witness :
    (1500 : Int) > CRITICAL_CREDIT_WARNING ∧ (50 : Int) ≤ CRITICAL_CREDIT_WARNING :=
  C1_threshold_crossing.1 50 1500 LOW_CREDIT_WARNING CRITICAL_CREDIT_WARNING (by decide)

/-- C4: in payment mode, for one logical request through `fetchWithAuth`:
a 402 first response followed by a successful retry makes exactly 2 network
calls and returns the retry's body; a 402 followed by a second non-success
raises the upstream error after the second call; a non-402 non-success first
response raises the upstream error after exactly 1 call; and no input ever
makes a third call. -/
theorem C4_payment_retry_bound {β : Type} (w : String) (now : Int)
    (nonceBytes : List Nat) (sign : Domain → Authorization → String)
    (errorOf : β → Option String) (prOf : β → PaymentRequest)
    (r1 r2 : HttpResponse β) :
    (r1.status = 402 → (prOf r1.body).accepts ≠ [] → isOkStatus r2.status = true →
      fetchWithAuthX402 (some w) now nonceBytes sign errorOf prOf r1 r2
        = (.ok r2.body, 2)) ∧
    (r1.status = 402 → (prOf r1.body).accepts ≠ [] → isOkStatus r2.status = false →
      fetchWithAuthX402 (some w) now nonceBytes sign errorOf prOf r1 r2
        = (.error (upstreamErrMsg errorOf r2), 2)) ∧
    (r1.status ≠ 402 → isOkStatus r1.status = false →
      fetchWithAuthX402 (some w) now nonceBytes sign errorOf prOf r1 r2
        = (.error (upstreamErrMsg errorOf r1), 1)) ∧
    ((fetchWithAuthX402 (some w) now nonceBytes sign errorOf prOf r1 r2).2 ≤ 2) := by
  refine ⟨?_, ?_, ?_, ?_⟩
  · intro h402 hacc hok
    obtain ⟨a, rest, hcons⟩ : ∃ a rest, (prOf r1.body).accepts = a :: rest := by
      cases hpr : (prOf r1.body).accepts with
      | nil => exact absurd hpr hacc
      | cons a rest => exact ⟨a, rest, rfl⟩
    simp [fetchWithAuthX402, h402, createPaymentHeader, createPayment, Except.map, hcons, hok]
  · intro h402 hacc hbad
    obtain ⟨a, rest, hcons⟩ : ∃ a rest, (prOf r1.body).accepts = a :: rest := by
      cases hpr : (prOf r1.body).accepts with
      | nil => exact absurd hpr hacc
      | cons a rest => exact ⟨a, rest, rfl⟩
    simp [fetchWithAuthX402, h402, createPaymentHeader, createPayment, Except.map, hcons, hbad]
  · intro hne hbad
    simp [fetchWithAuthX402, hne, hbad]
  · by_cases h402 : r1.status = 402
    · simp only [fetchWithAuthX402, h402]
      cases hpr : (prOf r1.body).accepts with
      | nil => simp [createPaymentHeader, createPayment, Except.map, hpr]
      | cons a rest =>
        by_cases hok : isOkStatus r2.status
        · simp [createPaymentHeader, createPayment, Except.map, hpr, hok]
        · simp [createPaymentHeader, createPayment, Except.map, hpr, hok]
    · by_cases hok : isOkStatus r1.status
      · simp [fetchWithAuthX402, h402, hok]
      · simp [fetchWithAuthX402, h402, hok]

/-- Witness for C4 at concrete responses (402 then 200). -/
theorem C4_payment_retry_bound_witness :
    fetchWithAuthX402 (some "0xWallet") 1700000000 [1, 2] (fun _ _ => "sig")
        (fun _ => none)
        (fun _ => { x402Version := 1,
                    accepts := [{ payTo := "0xP", maxAmountRequired := "10000",
                                  asset := "0xA", network := "base",
                                  scheme := "exact", maxTimeoutSeconds := 300 }] })
        ⟨402, "challenge"⟩ ⟨200, "done"⟩
      = (.ok "done", 2) :=
  (C4_payment_retry_bound "0xWallet" 1700000000 [1, 2] (fun _ _ => "sig")
      (fun _ => none) _ _ _).1 rfl (by decide) (by decide)

/-- C9: `purchase_credits` succeeds only via the 402-then-retry path. Any
first response whose status is not exactly 402 — including a 2xx success —
is converted into an error after exactly 1 network call, with no payment
header built and no second request; and a successful outcome implies the
first response was a 402, the retry was ok, and exactly 2 calls were made. -/
theorem C9_purchase_requires_402 {β : Type} (w packageName : String)
    (now : Int) (nonceBytes : List Nat) (sign : Domain → Authorization → String)
    (errorOf : β → Option String) (prOf : β → PaymentRequest)
    (r1 r2 : HttpResponse β)
    (hpkg : (purchasePackages.find? (fun p => p.1 = packageName)).isSome = true) :
    (r1.status ≠ 402 →
      purchase_credits (some w) packageName now nonceBytes sign errorOf prOf r1 r2
        = (.error ((errorOf r1.body).getD ("Unexpected response: " ++ toString r1.status)),
            1, false)) ∧
    (∀ b, (purchase_credits (some w) packageName now nonceBytes sign errorOf prOf r1 r2).1
        = .ok b →
      r1.status = 402 ∧ isOkStatus r2.status = true ∧ b = r2.body ∧
      (purchase_credits (some w) packageName now nonceBytes sign errorOf prOf r1 r2).2.1 = 2) := by
  obtain ⟨pkg, hfind⟩ : ∃ pkg, purchasePackages.find? (fun p => p.1 = packageName) = some pkg := by
    cases hf : purchasePackages.find? (fun p => p.1 = packageName) with
    | none => rw [hf] at hpkg; simp at hpkg
    | some pkg => exact ⟨pkg, rfl⟩
  constructor
  · intro hne
    simp [purchase_credits, hfind, hne]
  · intro b hb
    by_cases h402 : r1.status = 402
    · by_cases hok : isOkStatus r2.status
      · refine ⟨h402, hok, ?_, ?_⟩
        · cases hpr : (prOf r1.body).accepts with
          | nil =>
            simp [purchase_credits, hfind, h402, createPaymentHeader, createPayment, Except.map, hpr] at hb
          | cons a rest =>
            simp [purchase_credits, hfind, h402, createPaymentHeader, createPayment, Except.map,
              hpr, hok] at hb
            exact hb.symm
        · cases hpr : (prOf r1.body).accepts with
          | nil =>
            simp [purchase_credits, hfind, h402, createPaymentHeader, createPayment, Except.map, hpr] at hb
          | cons a rest =>
            simp [purchase_credits, hfind, h402, createPaymentHeader, createPayment, Except.map, hpr, hok]
      · exfalso
        cases hpr : (prOf r1.body).accepts with
        | nil =>
          simp [purchase_credits, hfind, h402, createPaymentHeader, createPayment, Except.map, hpr] at hb
        | cons a rest =>
          simp [purchase_credits, hfind, h402, createPaymentHeader, createPayment, Except.map,
            hpr, hok] at hb
    · exfalso
      simp [purchase_credits, hfind, h402] at hb

/-- C8: `createPaymentHeader` builds its authorization exclusively from
`accepts[0]` (the result is unchanged by the remaining accepted options),
with `validAfter` = now − 600 seconds, `validBefore` = now + the
requirement's `maxTimeoutSeconds`, and the nonce the hexlification of the
32 random bytes drawn for this invocation (distinct random bytes give a
distinct authorization, so each invocation's nonce and timestamps are
fresh); the result is the base64 encoding of the JSON object carrying the
protocol version, scheme, network, and a payload with the signature and the
authorization. -/
theorem C8_payment_header (w : String) (now : Int) (nonceBytes : List Nat)
    (sign : Domain → Authorization → String) (pr : PaymentRequest)
    (a : Accept) (rest : List Accept) (hacc : pr.accepts = a :: rest) :
    ∃ p : Payment,
      createPayment (some w) now nonceBytes sign pr = .ok p ∧
      p.x402Version = pr.x402Version ∧
      p.scheme = a.scheme ∧
      p.network = a.network ∧
      p.authorization.from_ = w ∧
      p.authorization.to_ = a.payTo ∧
      p.authorization.value = a.maxAmountRequired ∧
      p.authorization.validAfter = toString (now - 600) ∧
      p.authorization.validBefore = toString (now + a.maxTimeoutSeconds) ∧
      p.authorization.nonce = hexlify nonceBytes ∧
      p.signature = sign (paymentDomain a.asset) p.authorization ∧
      createPaymentHeader (some w) now nonceBytes sign pr
        = .ok (base64Encode (strBytes (stringifyPayment p))) ∧
      (∀ rest' : List Accept,
        createPayment (some w) now nonceBytes sign
          { x402Version := pr.x402Version, accepts := a :: rest' } = .ok p) ∧
      (∀ nonceBytes' : List Nat,
        nonceBytes'.length = nonceBytes.length →
        (∀ b ∈ nonceBytes', b < 256) → (∀ b ∈ nonceBytes, b < 256) →
        nonceBytes' ≠ nonceBytes →
        ∀ p', createPayment (some w) now nonceBytes' sign pr = .ok p' →
          p'.authorization ≠ p.authorization) := by
  refine ⟨{ x402Version := pr.x402Version, scheme := a.scheme, network := a.network,
            signature := sign (paymentDomain a.asset)
              { from_ := w, to_ := a.payTo, value := a.maxAmountRequired,
                validAfter := toString (now - 600),
                validBefore := toString (now + a.maxTimeoutSeconds),
                nonce := hexlify nonceBytes },
            authorization :=
              { from_ := w, to_ := a.payTo, value := a.maxAmountRequired,
                validAfter := toString (now - 600),
                validBefore := toString (now + a.maxTimeoutSeconds),
                nonce := hexlify nonceBytes } },
          ?_, rfl, rfl, rfl, rfl, rfl, rfl, rfl, rfl, rfl, rfl, ?_, ?_, ?_⟩
  · simp [createPayment, hacc]
  · simp [createPaymentHeader, createPayment, hacc, Except.map]
  · intro rest'
    simp [createPayment]
  · intro nb' hlen hb' hb hne p' hp' hcontra
    have hp'2 : createPayment (some w) now nb' sign pr = .ok
        { x402Version := pr.x402Version, scheme := a.scheme, network := a.network,
          signature := sign (paymentDomain a.asset)
            { from_ := w, to_ := a.payTo, value := a.maxAmountRequired,
              validAfter := toString (now - 600),
              validBefore := toString (now + a.maxTimeoutSeconds),
              nonce := hexlify nb' },
          authorization :=
            { from_ := w, to_ := a.payTo, value := a.maxAmountRequired,
              validAfter := toString (now - 600),
              validBefore := toString (now + a.maxTimeoutSeconds),
              nonce := hexlify nb' } } := by
      simp [createPayment, hacc]
    rw [hp'2] at hp'
    have hnonce : p'.authorization.nonce = hexlify nb' := by
      injection hp' with h
      rw [← h]
    have hnonce2 : p'.authorization.nonce = hexlify nonceBytes := by
      rw [hcontra]
    have : hexlify nb' = hexlify nonceBytes := by rw [← hnonce, hnonce2]
    exact hne (hexlify_inj nb' nonceBytes hb' hb hlen this)

/-- Witness for C8 at a concrete payment requirement. -/
theorem C8_payment_header_witness :
    ∃ p : Payment,
      createPayment (some "0xW") 1700000000 (List.replicate 32 7) (fun _ _ => "sig")
          { x402Version := 1,
            accepts := [{ payTo := "0xP", maxAmountRequired := "5000000",
                          asset := "0xUSDC", network := "base",
                          scheme := "exact", maxTimeoutSeconds := 300 }] } = .ok p ∧
      p.authorization.validAfter = toString ((1700000000 : Int) - 600) ∧
      p.authorization.validBefore = toString ((1700000000 : Int) + 300) ∧
      p.authorization.nonce = hexlify (List.replicate 32 7) := by
  obtain ⟨p, h1, _, _, _, _, _, _, h8, h9, h10, _⟩ :=
    C8_payment_header "0xW" 1700000000 (List.replicate 32 7) (fun _ _ => "sig")
      { x402Version := 1,
        accepts := [{ payTo := "0xP", maxAmountRequired := "5000000",
                      asset := "0xUSDC", network := "base",
                      scheme := "exact", maxTimeoutSeconds := 300 }] }
      { payTo := "0xP", maxAmountRequired := "5000000", asset := "0xUSDC",
        network := "base", scheme := "exact", maxTimeoutSeconds := 300 } [] rfl
  exact ⟨p, h1, h8, h9, h10⟩

/-- C5: the batch streaming driver partitions its input into contiguous
chunks of exactly 50 items (only the last chunk may be shorter, and no
chunk is empty) and issues one upstream request per chunk in order; for a
120-item input it issues exactly 3 requests with chunk sizes [50, 50, 20],
and the chunk-level progress events carry percentages
round(50/120·100) = 42, round(100/120·100) = 83, round(120/120·100) = 100. -/
theorem C5_chunking :
    (∀ (items : List String) (isData : Bool)
        (net : Nat → Except String (Option (List (String × ItemInfo)))),
        (∀ k, ∃ v, net k = Except.ok v) →
        (processBatchWithStreaming items isData net).requests = chunksOf50 items) ∧
    (∀ items : List String, (chunksOf50 items).flatten = items) ∧
    (∀ (items : List String) (c : List String),
        c ∈ chunksOf50 items → 0 < c.length ∧ c.length ≤ 50) ∧
    (∀ (items : List String) (c : List String),
        c ∈ (chunksOf50 items).dropLast → c.length = 50) ∧
    ((processBatchWithStreaming (List.replicate 120 "0xabc") false
        (fun _ => Except.ok (some []))).requests.map List.length = [50, 50, 20]) ∧
    (progressPercentages (processBatchWithStreaming (List.replicate 120 "0xabc") false
        (fun _ => Except.ok (some []))) = [42, 83, 100]) := by
  refine ⟨?_, ?_, ?_, ?_, by decide, by decide⟩
  · intro items isData net hnet
    exact runChunks_requests_all_ok net items.length isData hnet (chunksOf50 items) 0 0
  · intro items
    exact chunksGo_flatten items.length items le_rfl
  · intro items c hc
    exact chunksGo_mem_length items.length items le_rfl c hc
  · intro items c hc
    exact chunksGo_dropLast items.length items le_rfl c hc

/-- Witness for C5 at a concrete input and an all-ok network. -/
theorem C5_chunking_witness :
    (processBatchWithStreaming ["0xa", "0xb"] false
        (fun _ => Except.ok none)).requests = chunksOf50 ["0xa", "0xb"] :=
  C5_chunking.1 ["0xa", "0xb"] false (fun _ => Except.ok none) (fun _ => ⟨none, rfl⟩)

/-- C7: if the upstream request for some chunk fails (all earlier chunk
requests having succeeded), the whole batch aborts immediately — exactly the
chunks up to and including the failing one are requested and none after —
the run's outcome is that error, and through the tool boundary the caller
sees only the one-line error payload, whatever formatting of the accumulated
records a successful run would have produced. -/
theorem C7_batch_abort (items : List String) (isData : Bool)
    (net : Nat → Except String (Option (List (String × ItemInfo))))
    (j : Nat) (e : String)
    (hok : ∀ m, m < j → ∃ v, net m = Except.ok v)
    (herr : net j = .error e)
    (hj : j < (chunksOf50 items).length) :
    (processBatchWithStreaming items isData net).outcome = .error e ∧
    (processBatchWithStreaming items isData net).requests
      = (chunksOf50 items).take (j + 1) ∧
    (∀ fmt : List ItemRecord → ToolResult,
      toolBoundary ((processBatchWithStreaming items isData net).outcome.map fmt)
        = { text := "Error: " ++ e, isError := true }) := by
  have h := runChunks_abort net items.length isData e (chunksOf50 items) j 0 0
    (fun m hm => by simpa using hok m hm) (by simpa using herr) hj
  refine ⟨?_, ?_, ?_⟩
  · simp only [processBatchWithStreaming]
    exact h.1
  · simp only [processBatchWithStreaming]
    exact h.2
  · intro fmt
    simp only [processBatchWithStreaming]
    rw [h.1]
    rfl

/-- Witness for C7: a 60-item batch whose second chunk request fails. -/
theorem C7_batch_abort_witness :
    (processBatchWithStreaming (List.replicate 60 "0xa") false
        (fun k => if k = 0 then Except.ok none else Except.error "boom")).outcome
      = Except.error "boom" ∧
    toolBoundary ((processBatchWithStreaming (List.replicate 60 "0xa") false
        (fun k => if k = 0 then Except.ok none else Except.error "boom")).outcome.map
        (fun _ => ({ text := "the accumulated records", isError := false } : ToolResult)))
      = { text := "Error: " ++ "boom", isError := true } := by
  have h := C7_batch_abort (List.replicate 60 "0xa") false
    (fun k => if k = 0 then Except.ok none else Except.error "boom") 1 "boom"
    (fun m hm => by
      obtain rfl : m = 0 := by omega
      exact ⟨none, rfl⟩)
    rfl
    (by decide)
  exact ⟨h.1, h.2.2 _⟩

/-- Witness for C9: a 2xx first response (status 200) is an error after one
call with no payment header built. -/
theorem C9_purchase_requires_402_witness :
    purchase_credits (some "0xWallet") "starter" 1700000000 [1] (fun _ _ => "sig")
        (fun _ => (none : Option String)) (fun _ => { x402Version := 1, accepts := [] })
        ⟨200, "already purchased"⟩ ⟨200, "unused"⟩
      = (.error "Unexpected response: 200", 1, false) :=
  (C9_purchase_requires_402 "0xWallet" "starter" 1700000000 [1] (fun _ _ => "sig")
      (fun _ => none) (fun _ => { x402Version := 1, accepts := [] })
      ⟨200, "already purchased"⟩ ⟨200, "unused"⟩ (by decide)).1 (by decide)

end Bluepages
